import Mathlib

/-!
# Verification of the ProjectMona speech-synthesis orchestration and lip-sync engine

Shallow embedding of the Python sources `mona-brain/lip_sync.py`,
`mona-brain/tts_manager.py` and `mona-brain/tts_sovits.py`.

Conventions of the embedding:
* Python floats are modelled as exact rationals (`ℚ`); `round(x, 3)` is
  modelled as round-half-to-even of `x * 1000` divided by 1000.
* Python byte strings are lists of naturals (`List ℕ`), one per byte.
* Python exceptions are modelled with `Except Unit` / `Option`; a
  `try/except` that swallows every exception becomes a total function.
* External collaborators of a module (the `clean_for_tts` text cleaner,
  the md5 hex digest used to build cache file names, the filesystem, and
  the network) are abstracted as parameters/environment records; the
  control flow around them is translated from the source line by line.
-/

namespace Mona

/-! ## Viseme vocabulary (`lip_sync.py`, `RHUBARB_TO_VRM`)

A mouth cue as produced by the code: a JSON dict
`{"start": .., "end": .., "shape": .., "phonemes": {..}}`.
`end` is a Lean keyword, so the field is called `stop`.
The `"_silence": True` marker on the `X` entry is encoded as value `1`. -/

structure Cue where
  start : ℚ
  stop : ℚ
  shape : String
  phonemes : List (String × ℚ)
  deriving Repr, DecidableEq

/-- `RHUBARB_TO_VRM`: Rhubarb mouth shapes mapped to VRM phoneme blend shapes. -/
def RHUBARB_TO_VRM (s : String) : Option (List (String × ℚ)) :=
  if s = "A" then some [("aa", 0), ("ee", 0), ("ih", 0), ("oh", 0), ("ou", 15/100)]
  else if s = "B" then some [("aa", 4/10), ("ee", 0), ("ih", 25/100), ("oh", 0), ("ou", 0)]
  else if s = "C" then some [("aa", 25/100), ("ee", 85/100), ("ih", 2/10), ("oh", 0), ("ou", 0)]
  else if s = "D" then some [("aa", 9/10), ("ee", 0), ("ih", 1/10), ("oh", 0), ("ou", 0)]
  else if s = "E" then some [("aa", 55/100), ("ee", 0), ("ih", 0), ("oh", 75/100), ("ou", 0)]
  else if s = "F" then some [("aa", 2/10), ("ee", 0), ("ih", 0), ("oh", 2/10), ("ou", 8/10)]
  else if s = "G" then some [("aa", 15/100), ("ee", 0), ("ih", 35/100), ("oh", 0), ("ou", 0)]
  else if s = "H" then some [("aa", 35/100), ("ee", 0), ("ih", 15/100), ("oh", 0), ("ou", 0)]
  else if s = "X" then some [("aa", 0), ("ee", 0), ("ih", 0), ("oh", 0), ("ou", 0), ("_silence", 1)]
  else none

/-- `RHUBARB_TO_VRM.get(shape, RHUBARB_TO_VRM["X"])`. -/
def vrmOf (s : String) : List (String × ℚ) :=
  (RHUBARB_TO_VRM s).getD [("aa", 0), ("ee", 0), ("ih", 0), ("oh", 0), ("ou", 0), ("_silence", 1)]

/-- `GRAPHEME_TO_SHAPE`: lowercase letter to Rhubarb mouth shape.
Every key of the source dict is a single character. -/
def GRAPHEME_TO_SHAPE (c : Char) : Option String :=
  if c = 'm' ∨ c = 'b' ∨ c = 'p' then some "A"
  else if c = 'k' ∨ c = 's' ∨ c = 't' ∨ c = 'd' ∨ c = 'n' ∨
          c = 'g' ∨ c = 'z' ∨ c = 'c' ∨ c = 'j' ∨ c = 'q' ∨
          c = 'x' ∨ c = 'h' then some "B"
  else if c = 'e' ∨ c = 'i' ∨ c = 'y' then some "C"
  else if c = 'a' then some "D"
  else if c = 'o' then some "E"
  else if c = 'u' ∨ c = 'w' then some "F"
  else if c = 'f' ∨ c = 'v' then some "G"
  else if c = 'l' ∨ c = 'r' then some "H"
  else none

/-! ## Python `round(x, 3)` on exact rationals -/

/-- Round-half-to-even to an integer. -/
def roundHalfEven (q : ℚ) : ℤ :=
  if q - ⌊q⌋ < 1/2 then ⌊q⌋
  else if 1/2 < q - ⌊q⌋ then ⌊q⌋ + 1
  else if ⌊q⌋ % 2 = 0 then ⌊q⌋ else ⌊q⌋ + 1

/-- Python `round(x, 3)`: three decimal places, ties to even. -/
def round3 (q : ℚ) : ℚ := (roundHalfEven (q * 1000) : ℚ) / 1000

/-! ## Text-to-viseme estimator (`generate_lip_sync_from_text`) -/

/-- The per-character contribution of the scan loop— the body of
`for char in text.lower():` for one character: a mapped letter yields its
shape, a space yields `"X"`, everything else (punctuation included) is
skipped and yields nothing. -/
def charShapes (c : Char) : List String :=
  match GRAPHEME_TO_SHAPE c.toLower with
  | some s => [s]
  | none => if c.toLower = ' ' then ["X"] else []

/-- The `shapes` list built by the scan loop of `generate_lip_sync_from_text`. -/
def textShapes (text : String) : List String :=
  text.toList.flatMap charShapes

/-- One step of the merge loop: fold `shapes` into run-length pairs,
incrementing the count of the last entry when the shape repeats
(`merged[-1] = (shape, merged[-1][1] + 1)`), else appending `(shape, 1)`. -/
def mergeStep (merged : List (String × ℕ)) (shape : String) : List (String × ℕ) :=
  match merged.getLast? with
  | some (t, n) => if t = shape then merged.dropLast ++ [(t, n + 1)] else merged ++ [(shape, 1)]
  | none => [(shape, 1)]

/-- The merge loop: consecutive identical shapes collapsed to (shape, count). -/
def mergeShapes (shapes : List String) : List (String × ℕ) :=
  shapes.foldl mergeStep []

/-- Weight of one merged entry: `count * (0.3 if shape == "X" else 1.0)`. -/
def entryWeight (e : String × ℕ) : ℚ :=
  (e.2 : ℚ) * (if e.1 = "X" then 3/10 else 1)

/-- `total_weight = sum(count * (0.3 if shape == "X" else 1.0) ...)`. -/
def totalWeight (merged : List (String × ℕ)) : ℚ :=
  (merged.map entryWeight).sum

/-- The cue-emission loop: starting from `current_time = t`, each merged
entry spans `weight * time_per_weight`; the stored `start`/`end` are
rounded to three decimals but the running time accumulates unrounded. -/
def buildCues (timePerWeight : ℚ) : ℚ → List (String × ℕ) → List Cue
  | _, [] => []
  | t, e :: rest =>
    let endTime := t + entryWeight e * timePerWeight
    { start := round3 t, stop := round3 endTime, shape := e.1, phonemes := vrmOf e.1 } ::
      buildCues timePerWeight endTime rest

/-- `generate_lip_sync_from_text(text, audio_duration)`: lip sync estimated
from text. Returns `none` exactly when the source returns `None`. -/
def generate_lip_sync_from_text (text : String) (audio_duration : ℚ) :
    Option (List Cue) :=
  if text = "" ∨ audio_duration ≤ 0 then none
  else
    let shapes := textShapes text
    if shapes = [] then none
    else
      let merged := mergeShapes shapes
      let tw := totalWeight merged
      if tw = 0 then none
      else some (buildCues (audio_duration / tw) 0 merged)

/-! ## Rhubarb output conversion (`LipSyncGenerator.generate_lip_sync_async`,
the loop `for i, cue in enumerate(mouth_cues)`) -/

/-- One entry of the parsed Rhubarb JSON `mouthCues` list: a dict whose
`"value"` and `"start"` keys may each be absent (hence the `.get` defaults
in the source). -/
structure RawCue where
  value : Option String
  start : Option ℚ
  deriving Repr, DecidableEq

/-- The conversion loop of `generate_lip_sync_async`:
`shape = cue.get("value", "X")`, `start = cue.get("start", 0)`,
`end = mouth_cues[i+1].get("start", start + 0.1)` for non-final cues and
`start + 0.1` for the last one; no merging of adjacent shapes is done. -/
def rhubarbConvert : List RawCue → List Cue
  | [] => []
  | [c] =>
    let sh := c.value.getD "X"
    let st := c.start.getD 0
    [{ start := st, stop := st + 1/10, shape := sh, phonemes := vrmOf sh }]
  | c :: next :: rest =>
    let sh := c.value.getD "X"
    let st := c.start.getD 0
    let en := next.start.getD (st + 1/10)
    { start := st, stop := en, shape := sh, phonemes := vrmOf sh } ::
      rhubarbConvert (next :: rest)

/-! ## Duration probe (`get_wav_duration`) -/

/-- Little-endian unsigned decode of a byte list (`struct.unpack "<H"/"<I"`). -/
def readLE (bs : List ℕ) : ℕ :=
  bs.foldr (fun b acc => b + 256 * acc) 0

/-- `f.read(n)` followed by `struct.unpack`: succeeds only when `n` bytes
remain (a short read makes `struct.unpack` raise, which the probe's
`except` turns into `0.0`). -/
def takeExact (n : ℕ) (bs : List ℕ) : Option (List ℕ × List ℕ) :=
  if n ≤ bs.length then some (bs.take n, bs.drop n) else none

/-- The fixed-offset field reads of `get_wav_duration`: skip 22 bytes, read
`num_channels` (2), `sample_rate` (4), skip 6, read `bits_per_sample` (2).
Returns the fields and the remaining bytes where the chunk scan starts. -/
def parseFmt (bs : List ℕ) : Option (ℕ × ℕ × ℕ × List ℕ) := do
  let r := bs.drop 22
  let (chB, r) ← takeExact 2 r
  let (srB, r) ← takeExact 4 r
  let r := r.drop 6
  let (bpsB, r) ← takeExact 2 r
  pure (readLE chB, readLE srB, readLE bpsB, r)

/-- The bytes of `b"data"`. -/
def dataMagic : List ℕ := [0x64, 0x61, 0x74, 0x61]

/-- The `while True` chunk scan: read a 4-byte chunk id (empty read breaks,
returning `None` here, i.e. `0.0` in the caller), read a 4-byte size
(short read raises, also `None`), return the size of the `data` chunk, and
otherwise `f.seek(chunk_size, 1)` past the chunk. -/
def findData : List ℕ → Option ℕ
  | a :: b :: c :: d :: e :: f :: g :: h :: rest =>
    let sz := readLE [e, f, g, h]
    if [a, b, c, d] = dataMagic then some sz
    else findData (rest.drop sz)
  | _ => none
termination_by r => r.length
decreasing_by
  simp only [List.length_drop, List.length_cons]
  omega

/-- `get_wav_duration(wav_path)` over the file's bytes: parses the header
fields, finds the `data` chunk and computes
`chunk_size / (sample_rate * num_channels * (bits_per_sample // 8))`.
Every exception (short read, `ZeroDivisionError`) is caught and the
function returns `0.0`. -/
def get_wav_duration (bs : List ℕ) : ℚ :=
  match parseFmt bs with
  | none => 0
  | some (ch, sr, bps, rest) =>
    match findData rest with
    | none => 0
    | some sz =>
      let denom := sr * ch * (bps / 8)
      if denom = 0 then 0 else (sz : ℚ) / (denom : ℚ)

/-! ## Orchestrator (`tts_manager.py`, `TTSManager`) -/

/-- Python truthiness of an `Optional[str]`: `None` and `""` are falsy. -/
def pytruthyS : Option String → Bool
  | none => false
  | some s => s ≠ ""

/-- Python truthiness of an `Optional[list]`: `None` and `[]` are falsy. -/
def pytruthyL : Option (List Cue) → Bool
  | none => false
  | some l => l ≠ []

/-- `Path(p).name`: the component after the last `/`. -/
def pathName (p : String) : String :=
  (p.splitOn "/").getLastD ""

/-- A TTS engine instance as the manager sees it: its `mock_mode`
attribute (read via `getattr(.., "mock_mode", False)`) and the outcome of
one `await instance.generate_speech(text, generate_lip_sync=..)` call —
either a raised exception (`.error`) or a returned
`(audio_path, lip_sync_data)` pair. -/
structure Engine where
  mock_mode : Bool
  gen : Except Unit (Option String × Option (List Cue))

/-- The four engine slots of `TTSManager` (`None` = engine not set). -/
structure TTSManager where
  sovits : Option Engine
  fishspeech : Option Engine
  cartesia : Option Engine
  openai : Option Engine

/-- `TTSManager._get_engine`: slot lookup, with the `mock_mode` check
applied only to `fishspeech` and `cartesia` (the source checks
`getattr(.., "mock_mode", False)` only for those two). -/
def TTSManager.get_engine (m : TTSManager) (engine : String) : Option Engine :=
  if engine = "sovits" then m.sovits
  else if engine = "fishspeech" then
    match m.fishspeech with
    | some e => if ¬e.mock_mode then some e else none
    | none => none
  else if engine = "cartesia" then
    match m.cartesia with
    | some e => if ¬e.mock_mode then some e else none
    | none => none
  else if engine = "openai" then m.openai
  else none

/-- `TTSManager._try_engine`: `(None, None)` when the engine is missing,
fails, or raises; otherwise `("/audio/" + Path(audio_path).name, lip)`.
The `try/except Exception` catches every raised exception. -/
def TTSManager.try_engine (m : TTSManager) (engine : String) :
    Option String × Option (List Cue) :=
  match m.get_engine engine with
  | none => (none, none)
  | some e =>
    match e.gen with
    | .error _ => (none, none)
    | .ok (audio_path, lip) =>
      if pytruthyS audio_path then
        (some ("/audio/" ++ pathName (audio_path.getD "")), lip)
      else (none, none)

/-- Result of `TTSManager.generate`, with the list of engines passed to
`_try_engine` recorded in call order (the wall-clock `duration` element of
the source's 4-tuple is real time and is not modelled). -/
structure GenResult where
  audio_url : Option String
  lip_sync_data : Option (List Cue)
  used_engine : Option String
  attempts : List String
  deriving Repr, DecidableEq

/-- `TTSManager.generate`: try the requested engine, then fall back to
`"sovits"` (unless it was the requested engine), then to `"openai"` as
last resort, keeping any earlier lip-sync data over OpenAI's. -/
def TTSManager.generate (m : TTSManager) (engine_preference : String) : GenResult :=
  -- Try requested engine first
  let r1 := m.try_engine engine_preference
  let used1 : Option String := if pytruthyS r1.1 then some engine_preference else none
  -- Fallback to sovits if requested engine failed
  let r2 :=
    if ¬pytruthyS r1.1 ∧ engine_preference ≠ "sovits" then m.try_engine "sovits" else r1
  let used2 :=
    if ¬pytruthyS r1.1 ∧ engine_preference ≠ "sovits" then
      (if pytruthyS (m.try_engine "sovits").1 then some "sovits (fallback)" else used1)
    else used1
  let att2 :=
    if ¬pytruthyS r1.1 ∧ engine_preference ≠ "sovits" then [engine_preference, "sovits"]
    else [engine_preference]
  -- Fallback to openai as last resort
  if ¬pytruthyS r2.1 ∧ engine_preference ≠ "openai" then
    let rf := m.try_engine "openai"
    if pytruthyS rf.1 then
      { audio_url := rf.1
        lip_sync_data := if ¬pytruthyL r2.2 ∧ pytruthyL rf.2 then rf.2 else r2.2
        used_engine := some "openai (fallback)"
        attempts := att2 ++ ["openai"] }
    else
      { audio_url := r2.1, lip_sync_data := r2.2, used_engine := used2,
        attempts := att2 ++ ["openai"] }
  else
    { audio_url := r2.1, lip_sync_data := r2.2, used_engine := used2,
      attempts := att2 }

/-! ## GPT-SoVITS adapter (`tts_sovits.py`, `MonaTTSSoVITS.generate_speech`)

The adapter's external collaborators are abstracted:
* `clean` stands for `tts_preprocess.clean_for_tts`;
* `keyOf` stands for `hashlib.md5(f"{text}_{ref_audio_path}_{speed_factor}").hexdigest()`
  (an opaque deterministic key of the text; the reference path and speed
  factor are fixed per instance);
* the filesystem and the HTTP POST to the SoVITS server are an
  environment record, with the control flow around them translated from
  the source. The embedding covers the `convert_to_mp3 = False` form, the
  one used by `TTSManager` (which calls with the parameter defaults). -/

/-- Outcome of the `aiohttp` POST to the SoVITS endpoint. -/
inductive ApiResult where
  /-- Response with HTTP status and body bytes (`await response.read()`). -/
  | status (code : ℕ) (body : List ℕ)
  /-- `aiohttp.ClientError` raised. -/
  | clientError
  /-- any other exception (including `asyncio.TimeoutError`). -/
  | exn
  deriving Repr, DecidableEq

/-- Filesystem and network state seen by one `generate_speech` call. -/
structure SovitsEnv where
  /-- `cache_path.exists()` -/
  cacheExists : Bool
  /-- `lip_sync_cache_path.exists()` -/
  lipCacheExists : Bool
  /-- result of `json.loads(lip_sync_cache_path.read_text())`:
  `.error` when the cached lip-sync JSON is unparsable. -/
  lipCacheParse : Except Unit (List Cue)
  /-- outcome of the SoVITS API call -/
  api : ApiResult

/-- Instance configuration of `MonaTTSSoVITS` relevant to `generate_speech`. -/
structure SovitsCfg where
  sovits_url : String
  audio_dir : String

/-- `self.mock_mode = sovits_url.lower() == "mock"`. -/
def SovitsCfg.mock_mode (cfg : SovitsCfg) : Bool :=
  String.mk (cfg.sovits_url.toList.map Char.toLower) = "mock"

/-- External collaborators of the adapter. -/
structure SovitsDeps where
  /-- `tts_preprocess.clean_for_tts` -/
  clean : String → String
  /-- md5 hex digest of `f"{text}_{ref_audio_path}_{speed_factor}"` -/
  keyOf : String → String

/-- Observable outcome of `generate_speech`: the returned
`(audio path, lip_sync_data)` pair plus whether the SoVITS API was
called (regeneration) — the call never raises, every exception being
caught by the adapter's `except` clauses. -/
structure SovitsOut where
  audio : Option String
  lip : Option (List Cue)
  calledApi : Bool
  deriving Repr, DecidableEq

/-- Python `str.strip()`: whitespace removed from both ends (used only to
test blankness, matching `if not text or not text.strip()`). -/
def pyStrip (s : String) : String :=
  String.mk (((s.data.dropWhile Char.isWhitespace).reverse.dropWhile
    Char.isWhitespace).reverse)

/-- `MonaTTSSoVITS._get_cache_path(text, "wav")`. -/
def sovitsCachePath (deps : SovitsDeps) (cfg : SovitsCfg) (text : String) : String :=
  cfg.audio_dir ++ "/" ++ deps.keyOf text ++ ".wav"

/-- `MonaTTSSoVITS.generate_speech(text, use_cache=True,
convert_to_mp3=False, generate_lip_sync=gls, preprocess=True)`. -/
def sovits_generate_speech (deps : SovitsDeps) (cfg : SovitsCfg) (env : SovitsEnv)
    (text : String) (use_cache : Bool := true) (generate_lip_sync : Bool := true)
    (preprocess : Bool := true) : SovitsOut :=
  -- if not text or not text.strip(): return None, None
  if pyStrip text = "" then ⟨none, none, false⟩
  else
    let t := if preprocess then deps.clean text else text
    if pyStrip t = "" then ⟨none, none, false⟩
    else
      let cache_path := sovitsCachePath deps cfg t
      -- Return cached file if it exists
      if use_cache ∧ env.cacheExists then
        let lip : Option (List Cue) :=
          if env.lipCacheExists then
            match env.lipCacheParse with
            | .ok l => some l
            | .error _ => none  -- except Exception: pass
          else none
        ⟨some cache_path, lip, false⟩
      -- Mock mode: Return None (no audio)
      else if cfg.mock_mode then ⟨none, none, false⟩
      else
        match env.api with
        | .clientError => ⟨none, none, true⟩   -- except aiohttp.ClientError
        | .exn => ⟨none, none, true⟩           -- except Exception
        | .status code body =>
          if code ≠ 200 then ⟨none, none, true⟩
          else
            -- audio saved to wav_path (= cache_path, convert_to_mp3 False);
            -- then the text-based lip sync step guarded by the duration probe
            let lip : Option (List Cue) :=
              if generate_lip_sync then
                let audio_duration := get_wav_duration body
                if audio_duration > 0 then generate_lip_sync_from_text t audio_duration
                else none
              else none
            ⟨some cache_path, lip, true⟩

/-! ## Alignment subprocess lifecycle (`LipSyncGenerator.generate_lip_sync_async`)

The ffmpeg resample and the Rhubarb run are subprocesses awaited through
`asyncio.wait_for` with explicit timeouts (10 s and 30 s); their outcomes
are environment data. The model tracks which of the two temporary files —
the `.txt` dialog transcript and the `.rhubarb.wav` resampled audio —
still exist when the call returns. -/

/-- Outcome of the ffmpeg resample subprocess (its own `try/except`
swallows timeout and any other exception). -/
inductive ResampleOutcome where
  | timeout
  | exn
  | done (exitCode : ℤ)
  deriving Repr, DecidableEq

/-- Outcome of the Rhubarb subprocess: a timeout of the 30 s
`asyncio.wait_for`, some other exception while launching/communicating,
or completion with an exit code and (for exit code 0) the parse of its
JSON stdout (`.error` = `json.JSONDecodeError`). -/
inductive RhubarbOutcome where
  | timeout
  | exn
  | done (exitCode : ℤ) (stdoutJson : Except Unit (List RawCue))
  deriving Repr

/-- Environment of one `generate_lip_sync_async` call. -/
structure AlignEnv where
  /-- `self.rhubarb_path` is not `None` -/
  rhubarbAvailable : Bool
  /-- `os.path.isfile(audio_path)` -/
  audioFileExists : Bool
  resample : ResampleOutcome
  rhubarb : RhubarbOutcome

/-- Result of the call plus which temp files are left on disk. -/
structure AlignRun where
  result : Option (List Cue)
  /-- the dialog transcript `.txt` still exists at return -/
  dialogFileLeft : Bool
  /-- the resampled `.rhubarb.wav` still exists at return -/
  resampledFileLeft : Bool
  deriving Repr, DecidableEq

/-- `generate_lip_sync_async(audio_path, dialog_text)`: resample, write the
dialog transcript when given, run Rhubarb under a 30 s timeout, unlink the
two temp files after `communicate()` returns, then check the exit code and
parse the JSON. The `except asyncio.TimeoutError` / `except Exception`
handlers at the end of the function return `None` directly — the unlink
statements are not in a `finally` block, so they do not run on those
paths. -/
def generate_lip_sync_async (env : AlignEnv) (dialog_text : Option String) : AlignRun :=
  if ¬env.rhubarbAvailable then ⟨none, false, false⟩
  else if ¬env.audioFileExists then ⟨none, false, false⟩
  else
    -- resampled file written by ffmpeg on success (`returncode == 0`)
    let resampled : Bool := env.resample = .done 0
    -- dialog file written before launching Rhubarb when a transcript is given
    let dialog : Bool := dialog_text.isSome
    match env.rhubarb with
    | .timeout => ⟨none, dialog, resampled⟩   -- except asyncio.TimeoutError: return None
    | .exn => ⟨none, dialog, resampled⟩       -- except Exception: return None
    | .done code js =>
      -- Clean up temp files (reached only when communicate() returned)
      if code ≠ 0 then ⟨none, false, false⟩
      else
        match js with
        | .error _ => ⟨none, false, false⟩    -- except json.JSONDecodeError: return None
        | .ok cues => ⟨some (rhubarbConvert cues), false, false⟩

/-- Accumulator invariant of the merge loop: every run count is at least 1
and no two adjacent entries carry the same shape. -/
def goodAcc (acc : List (String × ℕ)) : Prop :=
  (∀ e ∈ acc, 1 ≤ e.2) ∧ List.Chain' (· ≠ ·) (acc.map Prod.fst)

end Mona

namespace Mona

/-! ## Arithmetic lemmas about `round3` -/

theorem roundHalfEven_le (q : ℚ) : (roundHalfEven q : ℚ) ≤ q + 1/2 := by
  have h1 : (⌊q⌋ : ℚ) ≤ q := Int.floor_le q
  have h2 : q < ⌊q⌋ + 1 := Int.lt_floor_add_one q
  unfold roundHalfEven
  split_ifs <;> push_cast <;> linarith

theorem le_roundHalfEven (q : ℚ) : q - 1/2 ≤ (roundHalfEven q : ℚ) := by
  have h1 : (⌊q⌋ : ℚ) ≤ q := Int.floor_le q
  have h2 : q < ⌊q⌋ + 1 := Int.lt_floor_add_one q
  unfold roundHalfEven
  split_ifs <;> push_cast <;> linarith

theorem roundHalfEven_mono {x y : ℚ} (h : x ≤ y) : roundHalfEven x ≤ roundHalfEven y := by
  rcases eq_or_lt_of_le h with rfl | hlt
  · exact le_refl _
  · by_contra hc
    push_neg at hc
    have h1 : (roundHalfEven y : ℚ) + 1 ≤ (roundHalfEven x : ℚ) := by
      exact_mod_cast Int.add_one_le_iff.mpr hc
    have h2 := roundHalfEven_le x
    have h3 := le_roundHalfEven y
    linarith

theorem round3_mono {x y : ℚ} (h : x ≤ y) : round3 x ≤ round3 y := by
  have hm : roundHalfEven (x * 1000) ≤ roundHalfEven (y * 1000) :=
    roundHalfEven_mono (by linarith)
  have hm' : (roundHalfEven (x * 1000) : ℚ) ≤ (roundHalfEven (y * 1000) : ℚ) := by
    exact_mod_cast hm
  unfold round3
  linarith

theorem round3_zero : round3 0 = 0 := by
  norm_num [round3, roundHalfEven]

theorem abs_round3_sub_le (q : ℚ) : |round3 q - q| ≤ 1/2000 := by
  have h1 := roundHalfEven_le (q * 1000)
  have h2 := le_roundHalfEven (q * 1000)
  unfold round3
  rw [abs_le]
  constructor <;> linarith

/-! ## Lemmas about the merge loop -/

theorem mergeStep_eq_none {acc : List (String × ℕ)} {s : String}
    (h : acc.getLast? = none) : mergeStep acc s = [(s, 1)] := by
  unfold mergeStep
  rw [h]

theorem mergeStep_eq_same {acc : List (String × ℕ)} {s : String} {n : ℕ}
    (h : acc.getLast? = some (s, n)) : mergeStep acc s = acc.dropLast ++ [(s, n + 1)] := by
  unfold mergeStep
  rw [h]
  simp

theorem mergeStep_eq_diff {acc : List (String × ℕ)} {s t : String} {n : ℕ}
    (h : acc.getLast? = some (t, n)) (hts : t ≠ s) : mergeStep acc s = acc ++ [(s, 1)] := by
  unfold mergeStep
  rw [h]
  simp [hts]

theorem mergeStep_ne_nil (acc : List (String × ℕ)) (s : String) : mergeStep acc s ≠ [] := by
  cases h : acc.getLast? with
  | none => rw [mergeStep_eq_none h]; simp
  | some e =>
    obtain ⟨t, n⟩ := e
    by_cases hts : t = s
    · subst hts
      rw [mergeStep_eq_same h]
      simp
    · rw [mergeStep_eq_diff h hts]
      simp

theorem foldl_mergeStep_ne_nil (shapes : List String) :
    ∀ acc : List (String × ℕ), acc ≠ [] ∨ shapes ≠ [] →
      shapes.foldl mergeStep acc ≠ [] := by
  induction shapes with
  | nil =>
    intro acc h
    simpa using h.resolve_right (by simp)
  | cons s rest ih =>
    intro acc _
    rw [List.foldl_cons]
    exact ih (mergeStep acc s) (Or.inl (mergeStep_ne_nil acc s))

theorem mergeStep_good (acc : List (String × ℕ)) (s : String) (h : goodAcc acc) :
    goodAcc (mergeStep acc s) := by
  obtain ⟨hcnt, hchain⟩ := h
  cases hl : acc.getLast? with
  | none =>
    rw [mergeStep_eq_none hl]
    refine ⟨?_, ?_⟩ <;> simp
  | some e =>
    obtain ⟨t, n⟩ := e
    have hacc : acc.dropLast ++ [(t, n)] = acc :=
      List.dropLast_append_getLast? (t, n) hl
    by_cases hts : t = s
    · subst hts
      rw [mergeStep_eq_same hl]
      constructor
      · intro e he
        rcases List.mem_append.mp he with h1 | h1
        · exact hcnt e ((List.dropLast_sublist acc).subset h1)
        · simp only [List.mem_singleton] at h1
          subst h1
          exact Nat.le_add_left 1 n
      · have hmap : (acc.dropLast ++ [(t, n + 1)]).map Prod.fst = acc.map Prod.fst := by
          conv_rhs => rw [← hacc]
          simp
        rw [hmap]
        exact hchain
    · rw [mergeStep_eq_diff hl hts]
      constructor
      · intro e he
        rcases List.mem_append.mp he with h1 | h1
        · exact hcnt e h1
        · simp only [List.mem_singleton] at h1
          subst h1
          exact le_refl 1
      · rw [List.map_append]
        refine List.Chain'.append hchain (by simp) ?_
        intro x hx y hy
        rw [List.getLast?_map, hl] at hx
        simp only [Option.mem_def, Option.map_some'] at hx
        simp only [List.map_cons, List.map_nil, List.head?_cons, Option.mem_def] at hy
        injection hx with hx
        injection hy with hy
        subst hx
        subst hy
        exact hts

theorem mergeShapes_good (shapes : List String) : goodAcc (mergeShapes shapes) := by
  unfold mergeShapes
  have main : ∀ acc : List (String × ℕ), goodAcc acc → goodAcc (shapes.foldl mergeStep acc) := by
    induction shapes with
    | nil => intro acc h; simpa using h
    | cons s rest ih =>
      intro acc h
      rw [List.foldl_cons]
      exact ih (mergeStep acc s) (mergeStep_good acc s h)
  exact main [] ⟨by simp, by simp⟩

theorem mergeShapes_ne_nil {shapes : List String} (h : shapes ≠ []) :
    mergeShapes shapes ≠ [] :=
  foldl_mergeStep_ne_nil shapes [] (Or.inr h)

/-! ## Lemmas about entry weights -/

theorem entryWeight_nonneg (e : String × ℕ) : 0 ≤ entryWeight e := by
  unfold entryWeight
  split_ifs <;> positivity

theorem entryWeight_pos (e : String × ℕ) (h : 1 ≤ e.2) : 0 < entryWeight e := by
  unfold entryWeight
  have : (1 : ℚ) ≤ (e.2 : ℚ) := by exact_mod_cast h
  split_ifs <;> nlinarith

theorem totalWeight_pos {merged : List (String × ℕ)} (hne : merged ≠ [])
    (hcnt : ∀ e ∈ merged, 1 ≤ e.2) : 0 < totalWeight merged := by
  obtain ⟨e, rest, rfl⟩ := List.exists_cons_of_ne_nil hne
  unfold totalWeight
  rw [List.map_cons, List.sum_cons]
  have h1 : 0 < entryWeight e := entryWeight_pos e (hcnt e (by simp))
  have h2 : 0 ≤ (rest.map entryWeight).sum :=
    List.sum_nonneg (by
      intro x hx
      obtain ⟨e', _, rfl⟩ := List.mem_map.mp hx
      exact entryWeight_nonneg e')
  linarith

/-! ## Lemmas about the cue-emission loop -/

theorem getLast?_cons_of_ne {α : Type} (a : α) {l : List α} (h : l ≠ []) :
    (a :: l).getLast? = l.getLast? := by
  obtain ⟨b, l', rfl⟩ := List.exists_cons_of_ne_nil h
  exact List.getLast?_cons_cons

theorem buildCues_map_shape (tpw : ℚ) (l : List (String × ℕ)) :
    ∀ t : ℚ, (buildCues tpw t l).map Cue.shape = l.map Prod.fst := by
  induction l with
  | nil => intro t; rfl
  | cons e rest ih =>
    intro t
    rw [buildCues, List.map_cons, List.map_cons, ih]

theorem buildCues_ne_nil (tpw : ℚ) {l : List (String × ℕ)} (h : l ≠ []) (t : ℚ) :
    buildCues tpw t l ≠ [] := by
  obtain ⟨e, rest, rfl⟩ := List.exists_cons_of_ne_nil h
  rw [buildCues]
  simp

theorem buildCues_head_start (tpw : ℚ) (l : List (String × ℕ)) (t : ℚ) :
    ∀ c ∈ (buildCues tpw t l).head?, c.start = round3 t := by
  cases l with
  | nil => intro c hc; simp [buildCues] at hc
  | cons e rest =>
    intro c hc
    rw [buildCues] at hc
    simp only [List.head?_cons, Option.mem_def] at hc
    injection hc with hc
    subst hc
    rfl

theorem buildCues_chain_contiguous (tpw : ℚ) (l : List (String × ℕ)) :
    ∀ t : ℚ, List.Chain' (fun a b => a.stop = b.start) (buildCues tpw t l) := by
  induction l with
  | nil => intro t; simp [buildCues]
  | cons e rest ih =>
    intro t
    rw [buildCues]
    refine List.chain'_cons'.mpr ⟨?_, ih _⟩
    intro c hc
    have := buildCues_head_start tpw rest (t + entryWeight e * tpw) c hc
    simp only [this]

theorem buildCues_start_le_stop (tpw : ℚ) (htpw : 0 ≤ tpw) (l : List (String × ℕ)) :
    ∀ t : ℚ, ∀ c ∈ buildCues tpw t l, c.start ≤ c.stop := by
  induction l with
  | nil => intro t c hc; simp [buildCues] at hc
  | cons e rest ih =>
    intro t c hc
    rw [buildCues] at hc
    rcases List.mem_cons.mp hc with h1 | h1
    · subst h1
      have hw : 0 ≤ entryWeight e * tpw :=
        mul_nonneg (entryWeight_nonneg e) htpw
      exact round3_mono (by linarith)
    · exact ih _ c h1

theorem buildCues_last_stop (tpw : ℚ) (l : List (String × ℕ)) :
    ∀ t : ℚ, ∀ c ∈ (buildCues tpw t l).getLast?,
      c.stop = round3 (t + (l.map entryWeight).sum * tpw) := by
  induction l with
  | nil => intro t c hc; simp [buildCues] at hc
  | cons e rest ih =>
    intro t c hc
    rw [buildCues] at hc
    cases rest with
    | nil =>
      simp only [buildCues, List.getLast?_singleton, Option.mem_def] at hc
      injection hc with hc
      subst hc
      simp only [List.map_cons, List.map_nil, List.sum_cons, List.sum_nil]
      ring_nf
    | cons e' rest' =>
      have hne : buildCues tpw (t + entryWeight e * tpw) (e' :: rest') ≠ [] :=
        buildCues_ne_nil tpw (by simp) _
      rw [getLast?_cons_of_ne _ hne] at hc
      have := ih (t + entryWeight e * tpw) c hc
      rw [this]
      congr 1
      simp only [List.map_cons, List.sum_cons]
      ring

/-! ## Lemmas about the orchestrator -/

theorem audio_url_ne_empty (s : String) : "/audio/" ++ s ≠ "" := by
  intro h
  have hlen : ("/audio/" ++ s).length = 0 := by rw [h]; rfl
  rw [String.length_append] at hlen
  have h7 : "/audio/".length = 7 := rfl
  omega

theorem try_engine_dichotomy (m : TTSManager) (e : String) :
    m.try_engine e = (none, none) ∨
      ∃ s, (m.try_engine e).1 = some ("/audio/" ++ s) := by
  unfold TTSManager.try_engine
  split
  · exact Or.inl rfl
  · split
    · exact Or.inl rfl
    · rename_i ap lip heq
      by_cases hap : pytruthyS ap = true
      · rw [if_pos hap]
        exact Or.inr ⟨pathName (ap.getD ""), rfl⟩
      · rw [if_neg hap]
        exact Or.inl rfl

theorem try_engine_false_eq {m : TTSManager} {e : String}
    (h : pytruthyS (m.try_engine e).1 = false) : m.try_engine e = (none, none) := by
  rcases try_engine_dichotomy m e with h1 | ⟨s, h1⟩
  · exact h1
  · rw [h1] at h
    simp only [pytruthyS] at h
    exact absurd (by simpa using h) (audio_url_ne_empty s)

theorem try_engine_truthy_of_some {m : TTSManager} {e : String} {s : String}
    (h : (m.try_engine e).1 = some s) : pytruthyS (m.try_engine e).1 = true := by
  rcases try_engine_dichotomy m e with h1 | ⟨s', h1⟩
  · rw [h1] at h
    simp at h
  · rw [h1]
    simp only [pytruthyS, decide_eq_true_eq]
    exact audio_url_ne_empty s'

/-- Case equation: the requested engine succeeds. -/
theorem generate_pref_success {m : TTSManager} {pref : String}
    (h : pytruthyS (m.try_engine pref).1 = true) :
    m.generate pref =
      { audio_url := (m.try_engine pref).1, lip_sync_data := (m.try_engine pref).2,
        used_engine := some pref, attempts := [pref] } := by
  unfold TTSManager.generate
  simp [h]

/-- Case equation: the requested engine fails and the sovits fallback succeeds. -/
theorem generate_sovits_fallback {m : TTSManager} {pref : String}
    (h1 : pytruthyS (m.try_engine pref).1 = false) (hne : pref ≠ "sovits")
    (h2 : pytruthyS (m.try_engine "sovits").1 = true) :
    m.generate pref =
      { audio_url := (m.try_engine "sovits").1, lip_sync_data := (m.try_engine "sovits").2,
        used_engine := some "sovits (fallback)", attempts := [pref, "sovits"] } := by
  unfold TTSManager.generate
  simp [h1, h2, hne]

/-- Case equation: the requested engine and sovits fail, openai succeeds. -/
theorem generate_openai_fallback {m : TTSManager} {pref : String}
    (h1 : pytruthyS (m.try_engine pref).1 = false) (hnes : pref ≠ "sovits")
    (h2 : pytruthyS (m.try_engine "sovits").1 = false) (hneo : pref ≠ "openai")
    (h3 : pytruthyS (m.try_engine "openai").1 = true) :
    m.generate pref =
      { audio_url := (m.try_engine "openai").1
        lip_sync_data :=
          if ¬pytruthyL (m.try_engine "sovits").2 ∧ pytruthyL (m.try_engine "openai").2 then
            (m.try_engine "openai").2
          else (m.try_engine "sovits").2
        used_engine := some "openai (fallback)"
        attempts := [pref, "sovits", "openai"] } := by
  unfold TTSManager.generate
  simp [h1, h2, h3, hnes, hneo]

/-! ## Lemmas about `generate_lip_sync_from_text` as a whole -/

theorem generate_lip_sync_eq_some (text : String) (dur : ℚ) (hd : 0 < dur)
    (hs : textShapes text ≠ []) :
    generate_lip_sync_from_text text dur =
      some (buildCues (dur / totalWeight (mergeShapes (textShapes text))) 0
        (mergeShapes (textShapes text))) := by
  have htext : ¬(text = "" ∨ dur ≤ 0) := by
    push_neg
    refine ⟨?_, hd⟩
    intro h
    subst h
    exact hs rfl
  have htw : totalWeight (mergeShapes (textShapes text)) ≠ 0 :=
    ne_of_gt (totalWeight_pos (mergeShapes_ne_nil hs) (mergeShapes_good _).1)
  simp only [generate_lip_sync_from_text, if_neg htext, if_neg hs, if_neg htw]

theorem generate_lip_sync_some_inv {text : String} {dur : ℚ} {cues : List Cue}
    (h : generate_lip_sync_from_text text dur = some cues) :
    cues = buildCues (dur / totalWeight (mergeShapes (textShapes text))) 0
      (mergeShapes (textShapes text)) := by
  simp only [generate_lip_sync_from_text] at h
  split_ifs at h
  injection h with h
  exact h.symm

/-! ## Claim C2 — timeline coverage of the text-based estimator -/

/-- C2, counterexample to the claim as stated: the text `"!"` is non-empty
and the duration `1` is positive, yet `generate_lip_sync_from_text`
produces no timeline at all (the bang maps to no shape, so the function
returns `None` instead of a timeline spanning `[0, 1]`). -/
theorem c2_counterexample : generate_lip_sync_from_text "!" 1 = none := by decide

/-- C2, amended: for every duration > 0 and every text with at least one
character that produces a shape (a mapped letter or a space), the
estimator returns a non-empty timeline whose cues are contiguous and
non-overlapping, whose first cue starts at 0, and whose last cue's end is
the duration rounded to three decimal places — hence within 1/2000 of the
requested duration (the stored cue bounds are rounded by `round(x, 3)`,
so "floating-point epsilon" must be read as that rounding quantum). -/
theorem c2_timeline_coverage (text : String) (dur : ℚ) (hd : 0 < dur)
    (hs : textShapes text ≠ []) :
    ∃ cues, generate_lip_sync_from_text text dur = some cues ∧ cues ≠ [] ∧
      (∀ c ∈ cues.head?, c.start = 0) ∧
      List.Chain' (fun a b => a.stop = b.start) cues ∧
      (∀ c ∈ cues, c.start ≤ c.stop) ∧
      (∀ c ∈ cues.getLast?, c.stop = round3 dur ∧ |c.stop - dur| ≤ 1/2000) := by
  have hmne : mergeShapes (textShapes text) ≠ [] := mergeShapes_ne_nil hs
  have hcnt := (mergeShapes_good (textShapes text)).1
  have htwpos : 0 < totalWeight (mergeShapes (textShapes text)) :=
    totalWeight_pos hmne hcnt
  have htpw : 0 ≤ dur / totalWeight (mergeShapes (textShapes text)) :=
    div_nonneg hd.le htwpos.le
  refine ⟨_, generate_lip_sync_eq_some text dur hd hs, ?_, ?_, ?_, ?_, ?_⟩
  · exact buildCues_ne_nil _ hmne 0
  · intro c hc
    have := buildCues_head_start _ _ 0 c hc
    rw [this, round3_zero]
  · exact buildCues_chain_contiguous _ _ 0
  · exact buildCues_start_le_stop _ htpw _ 0
  · intro c hc
    have hstop := buildCues_last_stop _ _ 0 c hc
    have hsum : ((mergeShapes (textShapes text)).map entryWeight).sum =
        totalWeight (mergeShapes (textShapes text)) := rfl
    rw [hsum] at hstop
    have hdur : (0 : ℚ) + totalWeight (mergeShapes (textShapes text)) *
        (dur / totalWeight (mergeShapes (textShapes text))) = dur := by
      field_simp
    rw [hdur] at hstop
    exact ⟨hstop, by rw [hstop]; exact abs_round3_sub_le dur⟩

/-- C2, witness: the amended theorem applied to text `"hi"` and duration 1. -/
theorem c2_timeline_coverage_witness :
    (0 : ℚ) < 1 ∧ textShapes "hi" ≠ [] ∧
      (∃ cues, generate_lip_sync_from_text "hi" 1 = some cues ∧ cues ≠ [] ∧
        (∀ c ∈ cues.head?, c.start = 0) ∧
        List.Chain' (fun a b => a.stop = b.start) cues ∧
        (∀ c ∈ cues, c.start ≤ c.stop) ∧
        (∀ c ∈ cues.getLast?, c.stop = round3 1 ∧ |c.stop - 1| ≤ 1/2000)) :=
  ⟨by norm_num, by decide, c2_timeline_coverage "hi" 1 (by norm_num) (by decide)⟩

/-! ## Claim C4 — character-mode scanning -/

/-- C4, counterexample to the claim as stated: the scanner has no
multi-letter patterns and punctuation produces nothing. For `"the"` the
three letters are mapped one by one through the single-character table
(`t ↦ B`, `h ↦ B`, `e ↦ C`) — there is no 3-letter pattern — and for
`"a."` the full stop contributes no silence weight at all: the resulting
timeline is a single `D` cue spanning the whole duration, with no silence
cue for the full stop. -/
theorem c4_counterexample :
    textShapes "the" = ["B", "B", "C"] ∧
      GRAPHEME_TO_SHAPE 't' = some "B" ∧ GRAPHEME_TO_SHAPE 'h' = some "B" ∧
      GRAPHEME_TO_SHAPE 'e' = some "C" ∧
      generate_lip_sync_from_text "a." 1 =
        some [{ start := 0, stop := 1, shape := "D", phonemes := vrmOf "D" }] := by
  refine ⟨by decide, by decide, by decide, by decide, ?_⟩
  rw [generate_lip_sync_eq_some "a." 1 (by norm_num) (by decide)]
  have h1 : textShapes "a." = ["D"] := by decide
  rw [h1]
  have h2 : mergeShapes ["D"] = [("D", 1)] := by decide
  rw [h2]
  have h3 : totalWeight [("D", 1)] = 1 := by
    simp [totalWeight, entryWeight]
  rw [h3]
  simp only [buildCues]
  norm_num [round3, roundHalfEven, entryWeight, (show ("D" : String) ≠ "X" by decide)]

/-- C4, amended: character mode processes the text one character at a
time with no lookahead — the shape stream of `c :: rest` is the
single-character contribution of `c` followed by the stream of `rest` —
where a letter in the table yields its shape, a space yields the silence
shape `X`, and punctuation (and any other unmapped character) is skipped,
contributing no weight; in particular `"the"` maps per-letter
(`t ↦ B`, `h ↦ B`, `e ↦ C`), not through any 3-letter pattern. -/
theorem c4_single_char_scan :
    (∀ (c : Char) (rest : List Char),
        textShapes (String.mk (c :: rest)) = charShapes c ++ textShapes (String.mk rest)) ∧
      charShapes 't' = ["B"] ∧ charShapes 'h' = ["B"] ∧ charShapes 'e' = ["C"] ∧
      charShapes ' ' = ["X"] ∧ charShapes '.' = [] ∧ charShapes '!' = [] ∧
      charShapes ',' = [] ∧ charShapes '-' = [] := by
  refine ⟨?_, by decide, by decide, by decide, by decide, by decide, by decide,
    by decide, by decide⟩
  intro c rest
  rfl

/-! ## Claim C6 — no adjacent duplicate shapes -/

/-- C6, counterexample to the claim as stated: the Rhubarb conversion
loop copies the tool's cues without merging, so a Rhubarb output with two
consecutive identical mouth-shape codes produces a timeline with two
consecutive cues of the same shape. -/
theorem c6_counterexample :
    (rhubarbConvert [⟨some "A", some 0⟩, ⟨some "A", some 1⟩]).map Cue.shape = ["A", "A"] ∧
      ¬ List.Chain' (fun a b : Cue => a.shape ≠ b.shape)
        (rhubarbConvert [⟨some "A", some 0⟩, ⟨some "A", some 1⟩]) := by
  refine ⟨by decide, ?_⟩
  intro h
  have := List.Chain'.rel_head h
  exact this rfl

/-- C6, amended: every timeline built by the text-based estimator has no
two consecutive cues with the same shape (consecutive identical shapes
are merged by the run-length loop before cues are emitted); the Rhubarb
conversion path does not merge and offers no such guarantee. -/
theorem c6_no_adjacent_duplicates {text : String} {dur : ℚ} {cues : List Cue}
    (h : generate_lip_sync_from_text text dur = some cues) :
    List.Chain' (fun a b => a.shape ≠ b.shape) cues := by
  have hcues := generate_lip_sync_some_inv h
  subst hcues
  have hchain := (mergeShapes_good (textShapes text)).2
  have hmap := buildCues_map_shape
    (dur / totalWeight (mergeShapes (textShapes text))) (mergeShapes (textShapes text)) 0
  rw [← hmap] at hchain
  exact (List.chain'_map Cue.shape).mp hchain

/-- C6, helper for the witness: the concrete timeline of `"hi"`. -/
theorem lip_sync_hi_eval :
    generate_lip_sync_from_text "hi" 1 =
      some [{ start := 0, stop := 1/2, shape := "B", phonemes := vrmOf "B" },
            { start := 1/2, stop := 1, shape := "C", phonemes := vrmOf "C" }] := by
  rw [generate_lip_sync_eq_some "hi" 1 (by norm_num) (by decide)]
  have h1 : textShapes "hi" = ["B", "C"] := by decide
  rw [h1]
  have h2 : mergeShapes ["B", "C"] = [("B", 1), ("C", 1)] := by decide
  rw [h2]
  have h3 : totalWeight [("B", 1), ("C", 1)] = 2 := by
    simp only [totalWeight, entryWeight, List.map_cons, List.map_nil, List.sum_cons,
      List.sum_nil]
    norm_num [(show ("B" : String) ≠ "X" by decide), (show ("C" : String) ≠ "X" by decide)]
  rw [h3]
  simp only [buildCues]
  norm_num [round3, roundHalfEven, entryWeight,
    (show ("B" : String) ≠ "X" by decide), (show ("C" : String) ≠ "X" by decide)]

/-- C6, witness: the amended theorem applied to the timeline of `"hi"`. -/
theorem c6_no_adjacent_duplicates_witness :
    generate_lip_sync_from_text "hi" 1 =
      some [{ start := 0, stop := 1/2, shape := "B", phonemes := vrmOf "B" },
            { start := 1/2, stop := 1, shape := "C", phonemes := vrmOf "C" }] ∧
      List.Chain' (fun a b : Cue => a.shape ≠ b.shape)
        [{ start := 0, stop := 1/2, shape := "B", phonemes := vrmOf "B" },
         { start := 1/2, stop := 1, shape := "C", phonemes := vrmOf "C" }] :=
  ⟨lip_sync_hi_eval, c6_no_adjacent_duplicates lip_sync_hi_eval⟩

/-! ## Claim C10 — a timeline is never returned without audio -/

theorem try_engine_snd_none {m : TTSManager} {e : String}
    (h : (m.try_engine e).1 = none) : (m.try_engine e).2 = none := by
  rcases try_engine_dichotomy m e with hd | ⟨s, hs⟩
  · rw [hd]
  · rw [hs] at h
    exact Option.noConfusion h

theorem generate_audio_none_lip_none (m : TTSManager) (pref : String)
    (h : (m.generate pref).audio_url = none) :
    (m.generate pref).lip_sync_data = none := by
  simp only [TTSManager.generate] at h ⊢
  split_ifs at h ⊢ <;> dsimp only at h ⊢ <;>
    first
      | exact try_engine_snd_none h
      | simp_all [pytruthyS]

/-- C10 (implicit invariant, confirmed): for every call to
`TTSManager.generate`, the returned `lip_sync_data` is non-`None` only if
the returned `audio_url` is non-`None`: a viseme timeline is never
returned without accompanying audio. -/
theorem c10_no_timeline_without_audio (m : TTSManager) (pref : String)
    (h : (m.generate pref).lip_sync_data ≠ none) :
    (m.generate pref).audio_url ≠ none :=
  fun ha => h (generate_audio_none_lip_none m pref ha)

/-- C10, witness: a manager whose only engine succeeds with a timeline.
The timeline is non-`None`, so the theorem yields non-`None` audio. -/
theorem c10_no_timeline_without_audio_witness :
    (TTSManager.generate
        ⟨some ⟨false, .ok (some "a/b.wav",
          some [{ start := 0, stop := 1, shape := "D", phonemes := [] }])⟩,
          none, none, none⟩ "sovits").lip_sync_data ≠ none ∧
      (TTSManager.generate
        ⟨some ⟨false, .ok (some "a/b.wav",
          some [{ start := 0, stop := 1, shape := "D", phonemes := [] }])⟩,
          none, none, none⟩ "sovits").audio_url ≠ none := by
  constructor
  · intro h
    revert h
    decide
  · exact c10_no_timeline_without_audio _ "sovits" (by intro h; revert h; decide)

/-! ## Claim C3 — graceful total failure -/

/-- A backend slot that can produce no audio: the engine is absent
(not configured), or every call either raises or returns a falsy audio
path. The `mock_mode` short-circuit of `_get_engine` and the adapters'
own mock/unconfigured `(None, None)` returns are special cases. -/
def slotFails : Option Engine → Prop
  | none => True
  | some e => ∀ ap lip, e.gen = .ok (ap, lip) → pytruthyS ap = false

theorem get_engine_slot {m : TTSManager} {name : String} {e : Engine}
    (h : m.get_engine name = some e) :
    m.sovits = some e ∨ m.fishspeech = some e ∨ m.cartesia = some e ∨ m.openai = some e := by
  unfold TTSManager.get_engine at h
  split_ifs at h
  · exact Or.inl h
  · split at h
    · rename_i e' heq
      split_ifs at h
      exact Or.inr (Or.inl (by rw [heq, h]))
    · exact Option.noConfusion h
  · split at h
    · rename_i e' heq
      split_ifs at h
      exact Or.inr (Or.inr (Or.inl (by rw [heq, h])))
    · exact Option.noConfusion h
  · exact Or.inr (Or.inr (Or.inr h))

theorem try_engine_all_fail {m : TTSManager}
    (hs : slotFails m.sovits) (hf : slotFails m.fishspeech)
    (hc : slotFails m.cartesia) (ho : slotFails m.openai) (name : String) :
    m.try_engine name = (none, none) := by
  unfold TTSManager.try_engine
  split
  · rfl
  · rename_i e heq
    split
    · rfl
    · rename_i ap lip heq2
      have hfail : pytruthyS ap = false := by
        rcases get_engine_slot heq with h | h | h | h
        · rw [h] at hs; exact hs ap lip heq2
        · rw [h] at hf; exact hf ap lip heq2
        · rw [h] at hc; exact hc ap lip heq2
        · rw [h] at ho; exact ho ap lip heq2
      rw [hfail]
      simp

/-- C3 (confirmed): when every backend adapter fails — absent, not
configured, raising, or returning no audio — `TTSManager.generate`
returns `audio_url = None`, `lip_sync_data = None` and
`used_engine = None`. The embedding is a total function because
`_try_engine` catches every exception, so no exception reaches the
caller. -/
theorem c3_graceful_total_failure (m : TTSManager) (pref : String)
    (hs : slotFails m.sovits) (hf : slotFails m.fishspeech)
    (hc : slotFails m.cartesia) (ho : slotFails m.openai) :
    (m.generate pref).audio_url = none ∧ (m.generate pref).lip_sync_data = none ∧
      (m.generate pref).used_engine = none := by
  have hall := try_engine_all_fail hs hf hc ho
  simp only [TTSManager.generate, hall, pytruthyS]
  split_ifs <;> simp_all

/-- C3, witness: a manager with no engines configured yields the
all-`None` terminal failure. -/
theorem c3_graceful_total_failure_witness :
    (TTSManager.generate ⟨none, none, none, none⟩ "sovits").audio_url = none ∧
      (TTSManager.generate ⟨none, none, none, none⟩ "sovits").lip_sync_data = none ∧
      (TTSManager.generate ⟨none, none, none, none⟩ "sovits").used_engine = none :=
  c3_graceful_total_failure ⟨none, none, none, none⟩ "sovits"
    trivial trivial trivial trivial

/-! ## Claim C1 — fallback order -/

/-- C1, counterexample to the claim as stated: four engines are
configured, the preferred one (`fishspeech`) always fails, `sovits`
fails, `cartesia` would succeed, and `openai` (the last backend in
priority order) succeeds. The manager's fallback chain is only
`preferred → sovits → openai`: `cartesia` is attempted zero times — not
"every backend exactly once" — and the reported engine is the string
`"openai (fallback)"`, not `"openai"`. -/
theorem c1_counterexample :
    (TTSManager.generate
        ⟨some ⟨false, .ok (none, none)⟩, some ⟨false, .ok (none, none)⟩,
          some ⟨false, .ok (some "c.wav", none)⟩,
          some ⟨false, .ok (some "o.mp3", none)⟩⟩ "fishspeech").used_engine =
        some "openai (fallback)" ∧
      some "openai (fallback)" ≠ some "openai" ∧
      (TTSManager.generate
        ⟨some ⟨false, .ok (none, none)⟩, some ⟨false, .ok (none, none)⟩,
          some ⟨false, .ok (some "c.wav", none)⟩,
          some ⟨false, .ok (some "o.mp3", none)⟩⟩ "fishspeech").attempts =
        ["fishspeech", "sovits", "openai"] ∧
      (TTSManager.generate
        ⟨some ⟨false, .ok (none, none)⟩, some ⟨false, .ok (none, none)⟩,
          some ⟨false, .ok (some "c.wav", none)⟩,
          some ⟨false, .ok (some "o.mp3", none)⟩⟩ "fishspeech").attempts.count
        "cartesia" = 0 := by
  refine ⟨by decide, by decide, by decide, by decide⟩

/-- C1, amended: on failure of the preferred backend the manager attempts
only `sovits` (skipped when it is the preferred engine) and then `openai`
(skipped when it is the preferred engine), in that fixed order, stopping
at the first success; no other backend is ever attempted as a fallback.
When the preferred backend and `sovits` fail and `openai` succeeds, the
attempted backends are exactly preferred, `sovits`, `openai` — each once —
and the result reports `backendUsed = "openai (fallback)"` with openai's
audio. -/
theorem c1_fallback_order :
    (∀ (m : TTSManager) (pref e : String), e ∈ (m.generate pref).attempts →
      e = pref ∨ e = "sovits" ∨ e = "openai") ∧
    (∀ (m : TTSManager) (pref : String), pref ≠ "sovits" → pref ≠ "openai" →
      pytruthyS (m.try_engine pref).1 = false →
      pytruthyS (m.try_engine "sovits").1 = false →
      pytruthyS (m.try_engine "openai").1 = true →
      (m.generate pref).used_engine = some "openai (fallback)" ∧
        (m.generate pref).attempts = [pref, "sovits", "openai"] ∧
        (m.generate pref).audio_url = (m.try_engine "openai").1) := by
  constructor
  · intro m pref e he
    simp only [TTSManager.generate] at he
    split_ifs at he <;> dsimp only at he <;>
      simp only [List.mem_append, List.mem_cons, List.mem_singleton,
        List.not_mem_nil, or_false] at he <;> tauto
  · intro m pref hnes hneo h1 h2 h3
    rw [generate_openai_fallback h1 hnes h2 hneo h3]
    exact ⟨rfl, rfl, rfl⟩

/-- C1, witness: the amended theorem's fallback scenario instantiated at
the counterexample's concrete manager. -/
theorem c1_fallback_order_witness :
    (TTSManager.generate
        ⟨some ⟨false, .ok (none, none)⟩, some ⟨false, .ok (none, none)⟩,
          some ⟨false, .ok (some "c.wav", none)⟩,
          some ⟨false, .ok (some "o.mp3", none)⟩⟩ "fishspeech").used_engine =
        some "openai (fallback)" ∧
      (TTSManager.generate
        ⟨some ⟨false, .ok (none, none)⟩, some ⟨false, .ok (none, none)⟩,
          some ⟨false, .ok (some "c.wav", none)⟩,
          some ⟨false, .ok (some "o.mp3", none)⟩⟩ "fishspeech").attempts =
        ["fishspeech", "sovits", "openai"] ∧
      (TTSManager.generate
        ⟨some ⟨false, .ok (none, none)⟩, some ⟨false, .ok (none, none)⟩,
          some ⟨false, .ok (some "c.wav", none)⟩,
          some ⟨false, .ok (some "o.mp3", none)⟩⟩ "fishspeech").audio_url =
        (TTSManager.try_engine
          ⟨some ⟨false, .ok (none, none)⟩, some ⟨false, .ok (none, none)⟩,
            some ⟨false, .ok (some "c.wav", none)⟩,
            some ⟨false, .ok (some "o.mp3", none)⟩⟩ "openai").1 :=
  c1_fallback_order.2
    ⟨some ⟨false, .ok (none, none)⟩, some ⟨false, .ok (none, none)⟩,
      some ⟨false, .ok (some "c.wav", none)⟩,
      some ⟨false, .ok (some "o.mp3", none)⟩⟩ "fishspeech"
    (by decide) (by decide) (by decide) (by decide) (by decide)

/-! ## Claim C5 — cache hits and the reported backend -/

/-- C5, counterexample to the claim as stated: the orchestrator has no
cache of its own and never reports `"cache"`. With the sovits adapter's
content cache holding the entry (a cache hit: the adapter returns the
cached file without calling the API), the orchestrator reports
`backendUsed = "sovits"` — the preferred engine's name — not `"cache"`. -/
theorem c5_counterexample :
    (sovits_generate_speech ⟨id, fun _ => "k"⟩ ⟨"http://s", "cache"⟩
        ⟨true, false, .error (), .exn⟩ "hello").audio = some "cache/k.wav" ∧
      (sovits_generate_speech ⟨id, fun _ => "k"⟩ ⟨"http://s", "cache"⟩
        ⟨true, false, .error (), .exn⟩ "hello").calledApi = false ∧
      (TTSManager.generate
        ⟨some ⟨false, .ok
          ((sovits_generate_speech ⟨id, fun _ => "k"⟩ ⟨"http://s", "cache"⟩
             ⟨true, false, .error (), .exn⟩ "hello").audio,
           (sovits_generate_speech ⟨id, fun _ => "k"⟩ ⟨"http://s", "cache"⟩
             ⟨true, false, .error (), .exn⟩ "hello").lip)⟩,
          none, none, none⟩ "sovits").used_engine = some "sovits" ∧
      (some "sovits" : Option String) ≠ some "cache" := by
  refine ⟨by decide, by decide, by decide, by decide⟩

/-- C5, amended: on a cache hit the hit happens inside the adapter — the
sovits adapter returns the cached audio path immediately and without
calling the synthesis API — and the orchestrator labels the result with
the preferred engine's name (e.g. `"sovits"`); no `"cache"` label exists
anywhere in the pipeline. -/
theorem c5_cache_hit_engine_label :
    (∀ (deps : SovitsDeps) (cfg : SovitsCfg) (env : SovitsEnv) (text : String),
      pyStrip text ≠ "" → pyStrip (deps.clean text) ≠ "" → env.cacheExists = true →
      (sovits_generate_speech deps cfg env text).audio =
          some (sovitsCachePath deps cfg (deps.clean text)) ∧
        (sovits_generate_speech deps cfg env text).calledApi = false) ∧
    (∀ (m : TTSManager) (pref : String), pytruthyS (m.try_engine pref).1 = true →
      (m.generate pref).used_engine = some pref) := by
  constructor
  · intro deps cfg env text h1 h2 hc
    simp only [sovits_generate_speech]
    simp [h1, h2, hc]
  · intro m pref h
    rw [generate_pref_success h]

/-- C5, witness: both halves of the amended theorem at concrete inputs —
the adapter-level cache hit, and a manager whose sovits engine succeeds
being labelled `"sovits"`. -/
theorem c5_cache_hit_engine_label_witness :
    ((sovits_generate_speech ⟨id, fun _ => "k"⟩ ⟨"http://s", "cache"⟩
        ⟨true, false, .error (), .exn⟩ "hello").audio =
        some (sovitsCachePath ⟨id, fun _ => "k"⟩ ⟨"http://s", "cache"⟩ (id "hello")) ∧
      (sovits_generate_speech ⟨id, fun _ => "k"⟩ ⟨"http://s", "cache"⟩
        ⟨true, false, .error (), .exn⟩ "hello").calledApi = false) ∧
      (TTSManager.generate
        ⟨some ⟨false, .ok (some "cache/k.wav", none)⟩, none, none, none⟩
        "sovits").used_engine = some "sovits" :=
  ⟨c5_cache_hit_engine_label.1 ⟨id, fun _ => "k"⟩ ⟨"http://s", "cache"⟩
      ⟨true, false, .error (), .exn⟩ "hello" (by decide) (by decide) rfl,
    c5_cache_hit_engine_label.2
      ⟨some ⟨false, .ok (some "cache/k.wav", none)⟩, none, none, none⟩
      "sovits" (by decide)⟩

/-! ## Claim C7 — duration probe and the duration-zero guard -/

/-- C7 (confirmed): the duration probe is total and never throws — for
every byte sequence it either returns 0 (any malformed header: short
reads, no `data` chunk, or a zero denominator, all caught by the
`try/except`) or the header parses and the result is exactly
`dataBytes / (sampleRate * channels * bytesPerSample)`; and the caller
(`MonaTTSSoVITS.generate_speech` after a successful download) skips
timeline generation when the probed duration is 0, returning the audio
with a null timeline rather than dividing by zero. -/
theorem c7_duration_probe_guard :
    (∀ bs : List ℕ, get_wav_duration bs = 0 ∨
      ∃ ch sr bps rest sz, parseFmt bs = some (ch, sr, bps, rest) ∧
        findData rest = some sz ∧ sr * ch * (bps / 8) ≠ 0 ∧
        get_wav_duration bs = (sz : ℚ) / ((sr * ch * (bps / 8) : ℕ) : ℚ)) ∧
    (∀ (deps : SovitsDeps) (cfg : SovitsCfg) (env : SovitsEnv) (text : String)
        (body : List ℕ),
      pyStrip text ≠ "" → pyStrip (deps.clean text) ≠ "" →
      env.cacheExists = false → cfg.mock_mode = false →
      env.api = .status 200 body → get_wav_duration body = 0 →
      sovits_generate_speech deps cfg env text =
        ⟨some (sovitsCachePath deps cfg (deps.clean text)), none, true⟩) := by
  constructor
  · intro bs
    unfold get_wav_duration
    cases hp : parseFmt bs with
    | none => exact Or.inl rfl
    | some q =>
      obtain ⟨ch, sr, bps, rest⟩ := q
      dsimp only
      cases hf : findData rest with
      | none => exact Or.inl rfl
      | some sz =>
        dsimp only
        by_cases hd : sr * ch * (bps / 8) = 0
        · rw [if_pos hd]
          exact Or.inl rfl
        · rw [if_neg hd]
          exact Or.inr ⟨ch, sr, bps, rest, sz, rfl, hf, hd, rfl⟩
  · intro deps cfg env text body h1 h2 hc hm hapi hdur
    simp only [sovits_generate_speech, hapi]
    simp [h1, h2, hc, hm, hdur]

/-- C7, witness: both halves at concrete inputs — the three-byte buffer
`[1, 2, 3]` is malformed and probes to 0, and a download whose body is
that buffer yields audio with a null timeline. -/
theorem c7_duration_probe_guard_witness :
    (get_wav_duration [1, 2, 3] = 0 ∨
      ∃ ch sr bps rest sz, parseFmt [1, 2, 3] = some (ch, sr, bps, rest) ∧
        findData rest = some sz ∧ sr * ch * (bps / 8) ≠ 0 ∧
        get_wav_duration [1, 2, 3] = (sz : ℚ) / ((sr * ch * (bps / 8) : ℕ) : ℚ)) ∧
      sovits_generate_speech ⟨id, fun _ => "k"⟩ ⟨"http://s", "cache"⟩
          ⟨false, false, .error (), .status 200 [1, 2, 3]⟩ "hello" =
        ⟨some (sovitsCachePath ⟨id, fun _ => "k"⟩ ⟨"http://s", "cache"⟩ (id "hello")),
          none, true⟩ :=
  ⟨c7_duration_probe_guard.1 [1, 2, 3],
    c7_duration_probe_guard.2 ⟨id, fun _ => "k"⟩ ⟨"http://s", "cache"⟩
      ⟨false, false, .error (), .status 200 [1, 2, 3]⟩ "hello" [1, 2, 3]
      (by decide) (by decide) rfl (by decide) rfl (by decide)⟩

/-! ## Claim C8 — malformed cached data -/

/-- C8, counterexample to the claim as stated: with the cached audio file
present and the cached lip-sync JSON unparsable, the lookup does NOT
behave as a cache miss and does NOT regenerate — it returns the cached
audio path with `lip_sync_data = None` and never calls the API
(`calledApi = false`). (It does not crash: that part of the claim holds.) -/
theorem c8_counterexample :
    sovits_generate_speech ⟨id, fun _ => "k"⟩ ⟨"http://s", "cache"⟩
        ⟨true, true, .error (), .exn⟩ "hello" =
      ⟨some "cache/k.wav", none, false⟩ := by decide

/-- C8, amended: a lookup that finds the cached audio file never crashes
and never regenerates, whatever the state of the cached lip-sync JSON:
unparsable JSON is swallowed (`except: pass`) and the cached audio is
returned with `lip_sync_data = None`; a corrupt audio file is returned
as-is, since only its existence is checked. -/
theorem c8_malformed_cache_no_crash (deps : SovitsDeps) (cfg : SovitsCfg)
    (env : SovitsEnv) (text : String)
    (h1 : pyStrip text ≠ "") (h2 : pyStrip (deps.clean text) ≠ "")
    (hc : env.cacheExists = true) (hl : env.lipCacheExists = true)
    (hp : env.lipCacheParse = .error ()) :
    sovits_generate_speech deps cfg env text =
      ⟨some (sovitsCachePath deps cfg (deps.clean text)), none, false⟩ := by
  simp only [sovits_generate_speech, hp]
  simp [h1, h2, hc, hl]

/-- C8, witness: the amended theorem at the counterexample's input. -/
theorem c8_malformed_cache_no_crash_witness :
    sovits_generate_speech ⟨id, fun _ => "k"⟩ ⟨"http://s", "cache"⟩
        ⟨true, true, .error (), .exn⟩ "hello" =
      ⟨some (sovitsCachePath ⟨id, fun _ => "k"⟩ ⟨"http://s", "cache"⟩ (id "hello")),
        none, false⟩ :=
  c8_malformed_cache_no_crash ⟨id, fun _ => "k"⟩ ⟨"http://s", "cache"⟩
    ⟨true, true, .error (), .exn⟩ "hello" (by decide) (by decide) rfl rfl rfl

/-! ## Claim C9 — subprocess timeout and temp-file cleanup -/

/-- C9 (code bug): the Rhubarb invocation does enforce explicit timeouts
(10 s for the resample, 30 s for Rhubarb), and the temp files are deleted
once `communicate()` returns — both on success and on a non-zero exit —
but the cleanup is not in a `finally` block, so on the timeout path
(`except asyncio.TimeoutError`) both the dialog transcript and the
resampled audio file are left on disk, contradicting "deleted on every
exit path". First conjunct: timeout path leaks both files. Second and
third conjuncts: the tool-failure and success paths do clean up. -/
theorem c9_timeout_leaks_temp_files :
    generate_lip_sync_async ⟨true, true, .done 0, .timeout⟩ (some "hello") =
        ⟨none, true, true⟩ ∧
      generate_lip_sync_async ⟨true, true, .done 0, .done 1 (.error ())⟩ (some "hello") =
        ⟨none, false, false⟩ ∧
      generate_lip_sync_async ⟨true, true, .done 0, .done 0 (.ok [])⟩ (some "hello") =
        ⟨some [], false, false⟩ := by
  refine ⟨by decide, by decide, by decide⟩

end Mona
